import Mathlib

/-!
Surface session of `sample/test0713/surface.c`

A shallow embedding of the Wayland shared-memory client in
`src/sample/test0713/surface.c`, followed by theorems about it.

* C pointers and proxy handles are natural numbers, `0` being `NULL`.
* C `int` values are integers; the result of every `int` operation is reduced
  to the range of a signed 32-bit integer by `wrap32`.  Where C leaves a
  signed overflow undefined, this is the wrap-around result of the 32-bit
  target.
* A store outside the mapped region ends the process with `Exit.fault`.
* The program talks to the outside through the Wayland client library and a
  few system calls.  Every library call the program makes is recorded, in
  order, as a `Call`; what the outside answers (returned handles, system call
  results, delivered events) is an input of the embedding.
-/

set_option linter.unusedVariables false

namespace Surface

/-- A C pointer or proxy handle; `0` is `NULL`. -/
abbrev Ptr := Nat

/-- Reduction of an integer to the range of a signed 32-bit `int`, from
-2147483648 to 2147483647, by wrap-around. -/
def wrap32 (x : Int) : Int := (x + 2147483648) % 4294967296 - 2147483648

/-- The value of `EXIT_SUCCESS`. -/
def EXIT_SUCCESS : Int := 0

/-- The value of `EXIT_FAILURE`. -/
def EXIT_FAILURE : Int := 1

/-- The value of `WL_SHM_FORMAT_ARGB8888`. -/
def WL_SHM_FORMAT_ARGB8888 : Nat := 0

/-- The record `struct client_state` (surface.c lines 12-32). -/
structure client_state where
  display : Ptr
  registry : Ptr
  compositor : Ptr
  shm : Ptr
  xdg_wm_base : Ptr
  surface : Ptr
  xdg_surface : Ptr
  xdg_toplevel : Ptr
  buffer : Ptr
  width : Int
  height : Int
  color : Nat
deriving DecidableEq, Repr

/-- A call into the Wayland client library, with its arguments and, for a
call that returns a handle, the handle returned. -/
inductive Call where
  | wl_display_connect (result : Ptr)
  | wl_display_get_registry (display result : Ptr)
  | wl_registry_add_listener (registry : Ptr)
  | wl_display_roundtrip (display : Ptr)
  | wl_registry_bind (registry : Ptr) (id : Nat) (interface : String) (version : Nat)
      (result : Ptr)
  | wl_compositor_create_surface (compositor result : Ptr)
  | xdg_wm_base_get_xdg_surface (wm_base surface result : Ptr)
  | xdg_surface_add_listener (xdg_surface : Ptr)
  | xdg_surface_get_toplevel (xdg_surface result : Ptr)
  | xdg_toplevel_add_listener (xdg_toplevel : Ptr)
  | xdg_toplevel_set_title (xdg_toplevel : Ptr) (title : String)
  | wl_surface_commit (surface : Ptr)
  | wl_display_dispatch (display : Ptr)
  | xdg_surface_ack_configure (xdg_surface : Ptr) (serial : Nat)
  | wl_shm_create_pool (shm : Ptr) (fd : Int) (size : Int) (result : Ptr)
  | wl_shm_pool_create_buffer (pool : Ptr) (offset width height stride : Int) (format : Nat)
      (result : Ptr)
  | wl_shm_pool_destroy (pool : Ptr)
  | wl_buffer_destroy (buffer : Ptr)
  | wl_surface_attach (surface buffer : Ptr) (x y : Int)
  | wl_surface_damage (surface : Ptr) (x y width height : Int)
  | wl_display_cancel_read (display : Ptr)
  | wl_display_disconnect (display : Ptr)
  | xdg_toplevel_destroy (xdg_toplevel : Ptr)
  | xdg_surface_destroy (xdg_surface : Ptr)
  | wl_surface_destroy (surface : Ptr)
  | xdg_wm_base_destroy (xdg_wm_base : Ptr)
  | wl_shm_destroy (shm : Ptr)
  | wl_compositor_destroy (compositor : Ptr)
  | wl_registry_destroy (registry : Ptr)
deriving DecidableEq, Repr

/-- How a process ends: by returning from `main` or calling `exit` with a
code, or by a store outside the mapped region. -/
inductive Exit where
  | code (c : Int)
  | fault
deriving DecidableEq, Repr

/-- The effect of running a piece of the program: the state it leaves, the
library calls it made, and how the process ended if it ended there. -/
structure Step where
  state : client_state
  calls : List Call
  exit : Option Exit
deriving DecidableEq, Repr

/-- What the outside answers during one run of `create_shm_buffer`: the
results of `mkstemp` and `ftruncate`, whether `mmap` gave a mapping, and the
handles returned by `wl_shm_create_pool` and `wl_shm_pool_create_buffer`. -/
structure ShmEnv where
  fd : Int
  ftruncate : Int
  mmap_ok : Bool
  pool : Ptr
  buffer : Ptr
deriving DecidableEq, Repr

/-- The mapping `mmap(NULL, size, ...)` of the freshly truncated file, as
32-bit words: `size` converted to `size_t` bytes, all zero. -/
def mmap_region (size : Int) : List Nat :=
  List.replicate ((size % 18446744073709551616).toNat / 4) 0

/-- The store `data[i] = v`; `none` when the word lies outside the mapping. -/
def store (data : List Nat) (i : Int) (v : Nat) : Option (List Nat) :=
  if 0 ≤ i ∧ i < data.length then some (data.set i.toNat v) else none

/-- The first `n` rounds of the inner loop of surface.c lines 152-154,
`for (x = 0; x < width; x++) data[y * width + x] = color`. -/
def fill_cols (width : Int) (color : Nat) (y : Int) : Nat → List Nat → Option (List Nat)
  | 0, data => some data
  | x + 1, data =>
    (fill_cols width color y x data).bind fun d =>
      store d (wrap32 (wrap32 (y * width) + (x : Int))) color

/-- The first `n` rounds of the outer loop of surface.c lines 151-155,
`for (y = 0; y < height; y++)`, each running the whole inner loop. -/
def fill_rows (width : Int) (color : Nat) : Nat → List Nat → Option (List Nat)
  | 0, data => some data
  | y + 1, data =>
    (fill_rows width color y data).bind fun d =>
      fill_cols width color (y : Int) width.toNat d

/-- The fill loop of surface.c lines 151-155 on the mapping `data`. -/
def fill (state : client_state) (data : List Nat) : Option (List Nat) :=
  fill_rows state.width state.color state.height.toNat data

/-- What `create_shm_buffer` leaves behind: the handle it returns, the library
calls it made, the stride and size it computed, the contents of the mapping
after the fill loop (when there was a mapping and no store left it), and
whether a store left the mapping. -/
structure ShmBuild where
  buffer : Ptr
  calls : List Call
  stride : Int
  size : Int
  data : Option (List Nat)
  fault : Bool
deriving DecidableEq, Repr

/-- The function `create_shm_buffer` (surface.c lines 123-169). -/
def create_shm_buffer (state : client_state) (env : ShmEnv) : ShmBuild :=
  let stride := wrap32 (state.width * 4)
  let size := wrap32 (stride * state.height)
  if env.fd < 0 then ⟨0, [], stride, size, none, false⟩
  else if env.ftruncate < 0 then ⟨0, [], stride, size, none, false⟩
  else if env.mmap_ok = false then ⟨0, [], stride, size, none, false⟩
  else
    match fill state (mmap_region size) with
    | none => ⟨0, [], stride, size, none, true⟩
    | some data =>
      ⟨env.buffer,
        [Call.wl_shm_create_pool state.shm env.fd size env.pool,
         Call.wl_shm_pool_create_buffer env.pool 0 state.width state.height stride
           WL_SHM_FORMAT_ARGB8888 env.buffer,
         Call.wl_shm_pool_destroy env.pool],
        stride, size, some data, false⟩

/-- The function `draw_frame` (surface.c lines 172-190). -/
def draw_frame (state : client_state) (env : ShmEnv) : Step :=
  let b := create_shm_buffer state env
  if b.fault = true then ⟨state, b.calls, some Exit.fault⟩
  else if b.buffer = 0 then ⟨state, b.calls, none⟩
  else
    let destroyed := if state.buffer ≠ 0 then [Call.wl_buffer_destroy state.buffer] else []
    let state1 := { state with buffer := b.buffer }
    ⟨state1,
      b.calls ++ destroyed ++
        [Call.wl_surface_attach state1.surface state1.buffer 0 0,
         Call.wl_surface_damage state1.surface 0 0 state1.width state1.height,
         Call.wl_surface_commit state1.surface],
      none⟩

/-- The callback `registry_global` (surface.c lines 67-80); `proxy` is the
handle `wl_registry_bind` returns if the callback binds the global. -/
def registry_global (state : client_state) (registry : Ptr) (id : Nat) (interface : String)
    (version : Nat) (proxy : Ptr) : Step :=
  if interface = "wl_compositor" then
    ⟨{ state with compositor := proxy },
      [Call.wl_registry_bind registry id "wl_compositor" 4 proxy], none⟩
  else if interface = "wl_shm" then
    ⟨{ state with shm := proxy }, [Call.wl_registry_bind registry id "wl_shm" 1 proxy], none⟩
  else if interface = "xdg_wm_base" then
    ⟨{ state with xdg_wm_base := proxy },
      [Call.wl_registry_bind registry id "xdg_wm_base" 1 proxy], none⟩
  else ⟨state, [], none⟩

/-- The callback `xdg_surface_configure` (surface.c lines 83-93). -/
def xdg_surface_configure (state : client_state) (xdg_surface : Ptr) (serial : Nat)
    (env : ShmEnv) : Step :=
  let d := draw_frame state env
  ⟨d.state, Call.xdg_surface_ack_configure xdg_surface serial :: d.calls, d.exit⟩

/-- The callback `xdg_toplevel_configure` (surface.c lines 96-108). -/
def xdg_toplevel_configure (state : client_state) (xdg_toplevel : Ptr) (width height : Int)
    (states : List Nat) : Step :=
  if width > 0 ∧ height > 0 then
    ⟨{ state with width := width, height := height }, [], none⟩
  else ⟨state, [], none⟩

/-- The callback `xdg_toplevel_close` (surface.c lines 111-120). -/
def xdg_toplevel_close (state : client_state) (xdg_toplevel : Ptr) : Step :=
  ⟨state,
    [Call.wl_display_cancel_read state.display, Call.wl_display_disconnect state.display],
    some (Exit.code 0)⟩

/-- A global announced by the registry: the arguments of the `global` event,
and the handle `wl_registry_bind` returns if the client binds it. -/
structure Global where
  id : Nat
  interface : String
  version : Nat
  proxy : Ptr
deriving DecidableEq, Repr

/-- An event delivered to one of the listeners installed by `main`.  An
`xdg_surface` configure event carries what the outside answers during the
redraw its handler starts. -/
inductive Event where
  | global (g : Global)
  | xdg_surface_configure (serial : Nat) (env : ShmEnv)
  | xdg_toplevel_configure (width height : Int) (states : List Nat)
  | xdg_toplevel_close
deriving DecidableEq, Repr

/-- Runs `f` from the state `r` leaves, unless the process ended in `r`. -/
def Step.andThen (r : Step) (f : client_state → Step) : Step :=
  match r.exit with
  | some _ => r
  | none =>
    let r2 := f r.state
    ⟨r2.state, r.calls ++ r2.calls, r2.exit⟩

/-- Delivery of one event to the listener installed for it (surface.c lines
50-64); the object argument of a callback is the proxy the listener was
installed on. -/
def dispatch_event (state : client_state) : Event → Step
  | Event.global g =>
    registry_global state state.registry g.id g.interface g.version g.proxy
  | Event.xdg_surface_configure serial env =>
    xdg_surface_configure state state.xdg_surface serial env
  | Event.xdg_toplevel_configure width height states =>
    xdg_toplevel_configure state state.xdg_toplevel width height states
  | Event.xdg_toplevel_close => xdg_toplevel_close state state.xdg_toplevel

/-- Delivery of a queue of events, in order, until the process ends. -/
def dispatch_events (state : client_state) : List Event → Step
  | [] => ⟨state, [], none⟩
  | e :: es => (dispatch_event state e).andThen fun s => dispatch_events s es

/-- What the outside answers during one run of `main`: the handles returned
by the object-creating calls, the globals announced during the first
round-trip, the events delivered during the second round-trip, the answers
during the redraw of step 14, and the batches of events delivered by the
successive calls of `wl_display_dispatch`, after which it returns `-1`. -/
structure Env where
  display : Ptr
  registry : Ptr
  globals : List Global
  surface : Ptr
  xdg_surface : Ptr
  xdg_toplevel : Ptr
  configure : List Event
  first_frame : ShmEnv
  loop : List (List Event)
deriving DecidableEq, Repr

/-- The initializer `struct client_state state = {0}` (surface.c line 193). -/
def zero_state : client_state := ⟨0, 0, 0, 0, 0, 0, 0, 0, 0, 0, 0, 0⟩

/-- Steps 1 to 4 of `main` and the check that follows (surface.c lines
195-215): connect, get the registry, listen, round-trip, check the globals. -/
def main_connect (env : Env) : Step :=
  let state := { zero_state with display := env.display }
  if state.display = 0 then
    ⟨state, [Call.wl_display_connect env.display], some (Exit.code EXIT_FAILURE)⟩
  else
    let state := { state with registry := env.registry }
    let r : Step :=
      ⟨state,
        [Call.wl_display_connect env.display,
         Call.wl_display_get_registry state.display env.registry,
         Call.wl_registry_add_listener state.registry,
         Call.wl_display_roundtrip state.display],
        none⟩
    (r.andThen fun s => dispatch_events s (env.globals.map Event.global)).andThen fun s =>
      if s.compositor = 0 ∨ s.shm = 0 ∨ s.xdg_wm_base = 0 then
        ⟨s, [], some (Exit.code EXIT_FAILURE)⟩
      else ⟨s, [], none⟩

/-- Steps 5 to 12 of `main` (surface.c lines 217-254): set the window
attributes, create the surface, the xdg surface and the toplevel, commit. -/
def main_create (env : Env) (state : client_state) : Step :=
  let state := { state with width := 800, height := 600, color := 0x0A0000FF }
  let state := { state with surface := env.surface }
  let c6 := [Call.wl_compositor_create_surface state.compositor env.surface]
  if state.surface = 0 then ⟨state, c6, some (Exit.code EXIT_FAILURE)⟩
  else
    let state := { state with xdg_surface := env.xdg_surface }
    let c7 := c6 ++ [Call.xdg_wm_base_get_xdg_surface state.xdg_wm_base state.surface
      env.xdg_surface]
    if state.xdg_surface = 0 then ⟨state, c7, some (Exit.code EXIT_FAILURE)⟩
    else
      let c8 := c7 ++ [Call.xdg_surface_add_listener state.xdg_surface]
      let state := { state with xdg_toplevel := env.xdg_toplevel }
      let c9 := c8 ++ [Call.xdg_surface_get_toplevel state.xdg_surface env.xdg_toplevel]
      if state.xdg_toplevel = 0 then ⟨state, c9, some (Exit.code EXIT_FAILURE)⟩
      else
        ⟨state,
          c9 ++
            [Call.xdg_toplevel_add_listener state.xdg_toplevel,
             Call.xdg_toplevel_set_title state.xdg_toplevel "Wayland 客户端示例",
             Call.wl_surface_commit state.surface],
          none⟩

/-- Steps 13 and 14 of `main` (surface.c lines 256-260): the second
round-trip and the first frame. -/
def main_first_frame (env : Env) (state : client_state) : Step :=
  let r : Step := ⟨state, [Call.wl_display_roundtrip state.display], none⟩
  (r.andThen fun s => dispatch_events s env.configure).andThen fun s =>
    draw_frame s env.first_frame

/-- The rounds of the loop of step 15 in which `wl_display_dispatch` delivers a
batch of events and returns their number: one round for each batch. -/
def run_batches (state : client_state) : List (List Event) → Step
  | [] => ⟨state, [], none⟩
  | batch :: rest =>
    let r : Step := ⟨state, [Call.wl_display_dispatch state.display], none⟩
    (r.andThen fun s => dispatch_events s batch).andThen fun s => run_batches s rest

/-- Step 15 of `main` (surface.c lines 263-265): the loop
`while (wl_display_dispatch(state.display) != -1)`, each call delivering one
batch of events; after the last batch the call returns `-1`. -/
def event_loop (state : client_state) (batches : List (List Event)) : Step :=
  (run_batches state batches).andThen fun s =>
    ⟨s, [Call.wl_display_dispatch s.display], none⟩

/-- Steps 1 to 14 of `main` (surface.c lines 193-260): everything before the
dispatch loop. -/
def main_setup (env : Env) : Step :=
  ((main_connect env).andThen (main_create env)).andThen (main_first_frame env)

/-- Steps 1 to 15 of `main` (surface.c lines 193-265): everything up to the
end of the dispatch loop. -/
def main_run (env : Env) : Step :=
  (main_setup env).andThen fun s => event_loop s env.loop

/-- Step 16 of `main` (surface.c lines 267-276): the calls that release the
resources. -/
def main_cleanup (state : client_state) : List Call :=
  (if state.buffer ≠ 0 then [Call.wl_buffer_destroy state.buffer] else []) ++
  (if state.xdg_toplevel ≠ 0 then [Call.xdg_toplevel_destroy state.xdg_toplevel] else []) ++
  (if state.xdg_surface ≠ 0 then [Call.xdg_surface_destroy state.xdg_surface] else []) ++
  (if state.surface ≠ 0 then [Call.wl_surface_destroy state.surface] else []) ++
  (if state.xdg_wm_base ≠ 0 then [Call.xdg_wm_base_destroy state.xdg_wm_base] else []) ++
  (if state.shm ≠ 0 then [Call.wl_shm_destroy state.shm] else []) ++
  (if state.compositor ≠ 0 then [Call.wl_compositor_destroy state.compositor] else []) ++
  [Call.wl_registry_destroy state.registry, Call.wl_display_disconnect state.display]

/-- The function `main` (surface.c lines 192-279). -/
def main (env : Env) : Step :=
  (main_run env).andThen fun s => ⟨s, main_cleanup s, some (Exit.code EXIT_SUCCESS)⟩

/-! ## Vocabulary of the statements -/

/-- Recognises an acknowledgment of a configure event. -/
def is_ack : Call → Bool
  | Call.xdg_surface_ack_configure _ _ => true
  | _ => false

/-- Recognises a commit of a surface. -/
def is_commit : Call → Bool
  | Call.wl_surface_commit _ => true
  | _ => false

/-- Recognises the calls that create the surface or the window object built
on it. -/
def creates_surface : Call → Bool
  | Call.wl_compositor_create_surface _ _ => true
  | Call.xdg_wm_base_get_xdg_surface _ _ _ => true
  | Call.xdg_surface_get_toplevel _ _ => true
  | _ => false

/-- Recognises the calls that drive a buffer onto the surface or destroy a
buffer. -/
def touches_buffer : Call → Bool
  | Call.wl_buffer_destroy _ => true
  | Call.wl_surface_attach _ _ _ _ => true
  | Call.wl_surface_damage _ _ _ _ _ => true
  | Call.wl_surface_commit _ => true
  | _ => false

/-- The session of surface.c after step 12 with handles 1 to 8, tracking
800x600, no buffer attached yet. -/
def state0 : client_state :=
  { display := 1, registry := 2, compositor := 3, shm := 4, xdg_wm_base := 5, surface := 6,
    xdg_surface := 7, xdg_toplevel := 8, buffer := 0, width := 800, height := 600,
    color := 0x0A0000FF }

/-- A small session with a buffer attached: `state0` tracking 2x2 with buffer 10. -/
def state1 : client_state := { state0 with buffer := 10, width := 2, height := 2 }

/-- Answers with which a buffer gets built: the system calls succeed and the
library returns the handles `pool` and `buffer`. -/
def shm_ok (pool buffer : Ptr) : ShmEnv := ⟨3, 0, true, pool, buffer⟩

/-- Answers in which `mkstemp` fails. -/
def shm_no_file : ShmEnv := ⟨-1, 0, true, 11, 12⟩

/-- The calls by which `create_shm_buffer` hands the filled region to the
shared-memory capability (surface.c lines 158-163). -/
def shm_calls (state : client_state) (env : ShmEnv) : List Call :=
  [Call.wl_shm_create_pool state.shm env.fd (wrap32 (wrap32 (state.width * 4) * state.height))
     env.pool,
   Call.wl_shm_pool_create_buffer env.pool 0 state.width state.height (wrap32 (state.width * 4))
     WL_SHM_FORMAT_ARGB8888 env.buffer,
   Call.wl_shm_pool_destroy env.pool]

/-- The calls by which `draw_frame` puts the buffer `buffer` on the surface
(surface.c lines 187-189). -/
def present_calls (state : client_state) (buffer : Ptr) : List Call :=
  [Call.wl_surface_attach state.surface buffer 0 0,
   Call.wl_surface_damage state.surface 0 0 state.width state.height,
   Call.wl_surface_commit state.surface]

/-- Delivery of a sequence of toplevel configure events, each given by the
width and height it proposes, to `xdg_toplevel_configure`. -/
def configure_sizes (state : client_state) : List (Int × Int) → client_state
  | [] => state
  | p :: ps =>
    configure_sizes (xdg_toplevel_configure state state.xdg_toplevel p.1 p.2 []).state ps

/-- The size proposed by the most recent event in which both values were
positive, if there is one. -/
def last_positive (sizes : List (Int × Int)) : Option (Int × Int) :=
  (sizes.filter fun p => decide (0 < p.1 ∧ 0 < p.2)).getLast?

/-- Answers in which `ftruncate` fails. -/
def shm_no_size : ShmEnv := ⟨3, -1, true, 11, 12⟩

/-- A sample run: the three required globals, a first configure sequence
making the window 2x2, and the connection closing at the first dispatch. -/
def env0 : Env :=
  { display := 1, registry := 2,
    globals := [⟨1, "wl_compositor", 4, 3⟩, ⟨2, "wl_shm", 1, 4⟩, ⟨3, "xdg_wm_base", 2, 5⟩],
    surface := 6, xdg_surface := 7, xdg_toplevel := 8,
    configure :=
      [Event.xdg_toplevel_configure 2 2 [], Event.xdg_surface_configure 7 (shm_ok 9 10)],
    first_frame := shm_ok 11 12,
    loop := [] }

/-- The sample run against a service that announces no compositor. -/
def env_no_compositor : Env :=
  { env0 with globals := [⟨2, "wl_shm", 1, 4⟩, ⟨3, "xdg_wm_base", 2, 5⟩, ⟨4, "wl_seat", 7, 9⟩] }

/-- The sample run against a service that announces `wl_compositor` at
version 3, below the version 4 the client binds. -/
def env_old_compositor : Env :=
  { env0 with
    globals := [⟨1, "wl_compositor", 3, 3⟩, ⟨2, "wl_shm", 1, 4⟩, ⟨3, "xdg_wm_base", 2, 5⟩] }

/-- The sample run with a first batch of events in the loop that resizes the
window to 1x1 and then closes it. -/
def env_close : Env :=
  { env0 with
    loop := [[Event.xdg_toplevel_configure 1 1 [], Event.xdg_surface_configure 8 (shm_ok 13 14),
              Event.xdg_toplevel_close, Event.xdg_toplevel_configure 3 3 []], []] }

/-- The run of `main` up to the moment an event of the batch that follows the
batches `done` is delivered, the events `before` of that batch having been
delivered. -/
def main_until (env : Env) (done : List (List Event)) (before : List Event) : Step :=
  (((main_setup env).andThen fun s => run_batches s done).andThen fun s =>
    ⟨s, [Call.wl_display_dispatch s.display], none⟩).andThen fun s => dispatch_events s before

/-- The kinds of object the client creates and releases. -/
inductive Kind where
  | display
  | registry
  | compositor
  | shm
  | xdg_wm_base
  | surface
  | xdg_surface
  | xdg_toplevel
  | shm_pool
  | buffer
deriving DecidableEq, Repr

/-- An object: its kind and its handle. -/
abbrev Obj := Kind × Ptr

/-- The object a call creates, if it is a creating call. -/
def created : Call → Option Obj
  | Call.wl_display_connect r => some (Kind.display, r)
  | Call.wl_display_get_registry _ r => some (Kind.registry, r)
  | Call.wl_registry_bind _ _ interface _ r =>
    if interface = "wl_compositor" then some (Kind.compositor, r)
    else if interface = "wl_shm" then some (Kind.shm, r)
    else if interface = "xdg_wm_base" then some (Kind.xdg_wm_base, r)
    else none
  | Call.wl_compositor_create_surface _ r => some (Kind.surface, r)
  | Call.xdg_wm_base_get_xdg_surface _ _ r => some (Kind.xdg_surface, r)
  | Call.xdg_surface_get_toplevel _ r => some (Kind.xdg_toplevel, r)
  | Call.wl_shm_create_pool _ _ _ r => some (Kind.shm_pool, r)
  | Call.wl_shm_pool_create_buffer _ _ _ _ _ _ r => some (Kind.buffer, r)
  | _ => none

/-- The object a call releases, if it is a releasing call. -/
def released : Call → Option Obj
  | Call.wl_shm_pool_destroy p => some (Kind.shm_pool, p)
  | Call.wl_buffer_destroy b => some (Kind.buffer, b)
  | Call.xdg_toplevel_destroy t => some (Kind.xdg_toplevel, t)
  | Call.xdg_surface_destroy x => some (Kind.xdg_surface, x)
  | Call.wl_surface_destroy f => some (Kind.surface, f)
  | Call.xdg_wm_base_destroy w => some (Kind.xdg_wm_base, w)
  | Call.wl_shm_destroy m => some (Kind.shm, m)
  | Call.wl_compositor_destroy c => some (Kind.compositor, c)
  | Call.wl_registry_destroy r => some (Kind.registry, r)
  | Call.wl_display_disconnect d => some (Kind.display, d)
  | _ => none

/-- The objects alive after one more call, in the order of their creation: a
creating call that returns a handle adds its object at the end, a releasing
call removes its object. -/
def live_step (objs : List Obj) (c : Call) : List Obj :=
  match created c with
  | some o => if o.2 = 0 then objs else objs ++ [o]
  | none =>
    match released c with
    | some o => objs.erase o
    | none => objs

/-- The objects alive after the calls `calls`, starting from the objects
`objs`, in the order of their creation. -/
def live_from (objs : List Obj) (calls : List Call) : List Obj :=
  calls.foldl live_step objs

/-- The objects alive after the calls `calls` of a fresh process, in the order
of their creation. -/
def live (calls : List Call) : List Obj := live_from [] calls

/-- The objects released by the calls `calls`, in the order of their release. -/
def release_order (calls : List Call) : List Obj := calls.filterMap released

/-- The objects of a session other than its buffer, in the order in which
`main` creates them when the registry announces the compositor first, the
shared-memory service second and the window-manager base third. -/
def base_objs (state : client_state) : List Obj :=
  [(Kind.display, state.display), (Kind.registry, state.registry),
   (Kind.compositor, state.compositor), (Kind.shm, state.shm),
   (Kind.xdg_wm_base, state.xdg_wm_base), (Kind.surface, state.surface),
   (Kind.xdg_surface, state.xdg_surface), (Kind.xdg_toplevel, state.xdg_toplevel)]

/-- The current buffer of a session, if it has one. -/
def buffer_objs (state : client_state) : List Obj :=
  if state.buffer ≠ 0 then [(Kind.buffer, state.buffer)] else []

/-- Recognises the interfaces `registry_global` binds. -/
def required (interface : String) : Bool :=
  interface = "wl_compositor" ∨ interface = "wl_shm" ∨ interface = "xdg_wm_base"

/-- Recognises the events on which `registry_global` binds a global. -/
def binds : Event → Bool
  | Event.global g => required g.interface
  | _ => false

/-- The sample run against a service that announces `wl_shm` before
`wl_compositor`. -/
def env_shm_first : Env :=
  { env0 with
    globals := [⟨1, "wl_shm", 1, 4⟩, ⟨2, "wl_compositor", 4, 3⟩, ⟨3, "xdg_wm_base", 2, 5⟩] }

/-! ## Theorems -/

theorem andThen_exit_some (r : Step) (f : client_state → Step) (e : Exit)
    (h : r.exit = some e) : r.andThen f = r := by
  simp [Step.andThen, h]

theorem andThen_exit_none (r : Step) (f : client_state → Step) (h : r.exit = none) :
    r.andThen f = ⟨(f r.state).state, r.calls ++ (f r.state).calls, (f r.state).exit⟩ := by
  simp [Step.andThen, h]

theorem xdg_toplevel_configure_size_aux (state : client_state) (xdg_toplevel : Ptr)
    (width height : Int) (states : List Nat) :
    (0 < width → 0 < height →
      (xdg_toplevel_configure state xdg_toplevel width height states).state =
        { state with width := width, height := height }) ∧
    (width ≤ 0 ∨ height ≤ 0 →
      (xdg_toplevel_configure state xdg_toplevel width height states).state = state) := by
  unfold xdg_toplevel_configure
  refine ⟨?_, ?_⟩
  · intro hw hh
    simp [hw, hh]
  · intro h
    have : ¬ (width > 0 ∧ height > 0) := by omega
    simp [this]

/-- C1: `xdg_toplevel_configure` leaves the tracked size equal to the proposed
size when width and height are both positive, and leaves the tracked width and
height as they were when a proposed value is zero or negative; every other
field of the state is kept, no call is made and the process goes on. -/
theorem xdg_toplevel_configure_size (state : client_state) (xdg_toplevel : Ptr)
    (width height : Int) (states : List Nat) :
    (0 < width → 0 < height →
      (xdg_toplevel_configure state xdg_toplevel width height states).state =
        { state with width := width, height := height }) ∧
    (width ≤ 0 ∨ height ≤ 0 →
      (xdg_toplevel_configure state xdg_toplevel width height states).state = state) ∧
    (xdg_toplevel_configure state xdg_toplevel width height states).calls = [] ∧
    (xdg_toplevel_configure state xdg_toplevel width height states).exit = none := by
  unfold xdg_toplevel_configure
  refine ⟨?_, ?_, ?_, ?_⟩
  · intro hw hh
    simp [hw, hh]
  · intro h
    have : ¬ (width > 0 ∧ height > 0) := by omega
    simp [this]
  · split <;> rfl
  · split <;> rfl

/-- C1, at the session tracking 800x600: a configure event 0x0 keeps 800x600
and a configure event 640x480 makes the tracked size 640x480. -/
theorem xdg_toplevel_configure_size_witness :
    (xdg_toplevel_configure state0 8 0 0 []).state = state0 ∧
    (xdg_toplevel_configure state0 8 640 480 []).state =
      { state0 with width := 640, height := 480 } :=
  ⟨(xdg_toplevel_configure_size state0 8 0 0 []).2.1 (Or.inl (by decide)),
   (xdg_toplevel_configure_size state0 8 640 480 []).1 (by decide) (by decide)⟩

/-- The four ways `create_shm_buffer` can end. -/
theorem create_shm_buffer_cases (state : client_state) (env : ShmEnv) :
    ((env.fd < 0 ∨ env.ftruncate < 0 ∨ env.mmap_ok = false) ∧
      (create_shm_buffer state env).buffer = 0 ∧ (create_shm_buffer state env).calls = [] ∧
      (create_shm_buffer state env).fault = false) ∨
    ((create_shm_buffer state env).buffer = 0 ∧ (create_shm_buffer state env).calls = [] ∧
      (create_shm_buffer state env).fault = true) ∨
    ((create_shm_buffer state env).fault = false ∧
      (create_shm_buffer state env).buffer = env.buffer ∧
      (create_shm_buffer state env).calls = shm_calls state env) := by
  unfold create_shm_buffer shm_calls
  simp only
  split_ifs with h1 h2 h3
  · simp [h1]
  · simp [h2]
  · simp [h3]
  · split <;> simp

/-- The four ways `draw_frame` can end. -/
theorem draw_frame_cases (state : client_state) (env : ShmEnv) :
    draw_frame state env = ⟨state, [], some Exit.fault⟩ ∨
    draw_frame state env = ⟨state, [], none⟩ ∨
    (env.buffer = 0 ∧ draw_frame state env = ⟨state, shm_calls state env, none⟩) ∨
    (env.buffer ≠ 0 ∧ draw_frame state env =
      ⟨{ state with buffer := env.buffer },
        shm_calls state env ++
          (if state.buffer ≠ 0 then [Call.wl_buffer_destroy state.buffer] else []) ++
          present_calls state env.buffer, none⟩) := by
  unfold draw_frame present_calls
  simp only
  rcases create_shm_buffer_cases state env with ⟨-, h0, h1, h2⟩ | ⟨h0, h1, h2⟩ | ⟨h0, h1, h2⟩
  · simp [h0, h1, h2]
  · simp [h0, h1, h2]
  · by_cases hb : env.buffer = 0
    · simp [h0, h1, h2, hb]
    · simp [h0, h1, h2, hb]

theorem draw_frame_no_ack (state : client_state) (env : ShmEnv) :
    (draw_frame state env).calls.filter is_ack = [] := by
  rcases draw_frame_cases state env with h | h | ⟨-, h⟩ | ⟨-, h⟩ <;> rw [h]
  · rfl
  · rfl
  · rfl
  · by_cases hb : state.buffer = 0 <;> simp [hb, shm_calls, present_calls, is_ack]

/-- C2: the calls made by `xdg_surface_configure` for a configure event with
serial `serial` contain exactly one acknowledgment, it carries `serial`, it is
the first call made, and it comes before every surface commit made while the
event is handled. -/
theorem xdg_surface_configure_ack_once (state : client_state) (xdg_surface : Ptr)
    (serial : Nat) (env : ShmEnv) :
    (xdg_surface_configure state xdg_surface serial env).calls.filter is_ack =
      [Call.xdg_surface_ack_configure xdg_surface serial] ∧
    (xdg_surface_configure state xdg_surface serial env).calls.head? =
      some (Call.xdg_surface_ack_configure xdg_surface serial) ∧
    ∀ (pre post : List Call) (c : Call),
      (xdg_surface_configure state xdg_surface serial env).calls = pre ++ c :: post →
      is_commit c = true → Call.xdg_surface_ack_configure xdg_surface serial ∈ pre := by
  refine ⟨?_, ?_, ?_⟩
  · simp [xdg_surface_configure, List.filter_cons, is_ack, draw_frame_no_ack]
  · simp [xdg_surface_configure]
  · intro pre post c h hc
    cases pre with
    | nil =>
      simp only [xdg_surface_configure, List.nil_append, List.cons.injEq] at h
      rw [← h.1] at hc
      simp [is_commit] at hc
    | cons a pre =>
      simp only [xdg_surface_configure, List.cons_append, List.cons.injEq] at h
      simp [h.1]

/-- C7, as the code has it: a redraw that builds a buffer destroys the buffer
attached before, if there is one, after the new buffer has been created and
just before the new buffer is attached. -/
theorem draw_frame_replaces_buffer (state : client_state) (env : ShmEnv)
    (hold : state.buffer ≠ 0) (hok : (create_shm_buffer state env).buffer ≠ 0) :
    (draw_frame state env).state = { state with buffer := env.buffer } ∧
    (draw_frame state env).exit = none ∧
    (draw_frame state env).calls =
      shm_calls state env ++
        [Call.wl_buffer_destroy state.buffer,
         Call.wl_surface_attach state.surface env.buffer 0 0,
         Call.wl_surface_damage state.surface 0 0 state.width state.height,
         Call.wl_surface_commit state.surface] := by
  rcases create_shm_buffer_cases state env with ⟨-, h0, -⟩ | ⟨h0, -⟩ | ⟨h0, h1, h2⟩
  · exact absurd h0 hok
  · exact absurd h0 hok
  · have hb : env.buffer ≠ 0 := h1 ▸ hok
    unfold draw_frame
    simp [h0, h1, h2, hold, hb]

/-- C7, at the 2x2 session with buffer 10 attached: the new buffer 12 takes
its place, buffer 10 being destroyed just before buffer 12 is attached. -/
theorem draw_frame_replaces_buffer_witness :
    (draw_frame state1 (shm_ok 11 12)).state = { state1 with buffer := 12 } ∧
    (draw_frame state1 (shm_ok 11 12)).exit = none ∧
    (draw_frame state1 (shm_ok 11 12)).calls =
      shm_calls state1 (shm_ok 11 12) ++
        [Call.wl_buffer_destroy 10,
         Call.wl_surface_attach 6 12 0 0,
         Call.wl_surface_damage 6 0 0 2 2,
         Call.wl_surface_commit 6] :=
  draw_frame_replaces_buffer state1 (shm_ok 11 12) (by decide) (by decide)

/-- C7 fails as stated: in the redraw of the 2x2 session with buffer 10
attached, the destroy of buffer 10 comes before the attach of the new buffer
12, not after it. -/
theorem draw_frame_destroys_before_attach :
    (draw_frame state1 (shm_ok 11 12)).state.buffer = 12 ∧
    (draw_frame state1 (shm_ok 11 12)).calls.indexOf (Call.wl_buffer_destroy 10) = 3 ∧
    (draw_frame state1 (shm_ok 11 12)).calls.indexOf (Call.wl_surface_attach 6 12 0 0) = 4 ∧
    ¬ ((draw_frame state1 (shm_ok 11 12)).calls.indexOf (Call.wl_surface_attach 6 12 0 0) <
        (draw_frame state1 (shm_ok 11 12)).calls.indexOf (Call.wl_buffer_destroy 10)) := by
  decide

/-- C8: when the temporary file cannot be created, sized or mapped,
`create_shm_buffer` returns no buffer and `draw_frame` gives up the redraw
only: the state, with its buffer handle, is what it was, no call is made (no
buffer is destroyed, nothing is attached, damaged or committed), the process
goes on, and the configure handler that asked for the redraw has done nothing
but acknowledge. -/
theorem draw_frame_build_failure (state : client_state) (env : ShmEnv)
    (hfail : env.fd < 0 ∨ env.ftruncate < 0 ∨ env.mmap_ok = false) :
    (create_shm_buffer state env).buffer = 0 ∧
    draw_frame state env = ⟨state, [], none⟩ ∧
    (∀ (xdg_surface : Ptr) (serial : Nat),
      xdg_surface_configure state xdg_surface serial env =
        ⟨state, [Call.xdg_surface_ack_configure xdg_surface serial], none⟩) := by
  have hb : (create_shm_buffer state env).buffer = 0 ∧
      (create_shm_buffer state env).calls = [] ∧
      (create_shm_buffer state env).fault = false := by
    unfold create_shm_buffer
    simp only
    rcases hfail with h | h | h
    · simp [h]
    · split_ifs <;> simp
    · split_ifs <;> simp
  have hd : draw_frame state env = ⟨state, [], none⟩ := by
    unfold draw_frame
    simp [hb.1, hb.2.1, hb.2.2]
  exact ⟨hb.1, hd, fun xs serial => by simp [xdg_surface_configure, hd]⟩

/-- C8, at the 2x2 session with buffer 10 attached when `mkstemp` fails. -/
theorem draw_frame_build_failure_witness :
    (create_shm_buffer state1 shm_no_file).buffer = 0 ∧
    draw_frame state1 shm_no_file = ⟨state1, [], none⟩ ∧
    (∀ (xdg_surface : Ptr) (serial : Nat),
      xdg_surface_configure state1 xdg_surface serial shm_no_file =
        ⟨state1, [Call.xdg_surface_ack_configure xdg_surface serial], none⟩) :=
  draw_frame_build_failure state1 shm_no_file (Or.inl (by decide))

theorem wrap32_of_range (x : Int) (h0 : -2147483648 ≤ x) (h1 : x < 2147483648) :
    wrap32 x = x := by
  unfold wrap32
  omega

theorem store_in_range (data : List Nat) (i : Nat) (v : Nat) (h : i < data.length) :
    store data (i : Int) v = some (data.set i v) := by
  unfold store
  have : (0 : Int) ≤ (i : Int) ∧ (i : Int) < (data.length : Int) := by omega
  simp [this]

/-- The inner loop writes `color` to the `n` words from `m = y * width` on and
leaves the other words as they were. -/
theorem fill_cols_spec (width : Int) (color : Nat) (y : Int) (m : Nat)
    (hm : y * width = (m : Int)) (data : List Nat) (hL : data.length < 2147483648) (n : Nat)
    (hn : m + n ≤ data.length) :
    ∃ d, fill_cols width color y n data = some d ∧ d.length = data.length ∧
      ∀ j, d[j]? = if m ≤ j ∧ j < m + n then some color else data[j]? := by
  induction n with
  | zero =>
    refine ⟨data, rfl, rfl, fun j => ?_⟩
    rw [if_neg (by omega)]
  | succ n ih =>
    obtain ⟨d, hd, hlen, hget⟩ := ih (by omega)
    have hidx : wrap32 (wrap32 (y * width) + (n : Int)) = ((m + n : Nat) : Int) := by
      have h1 : wrap32 (m : Int) = (m : Int) := wrap32_of_range _ (by omega) (by omega)
      rw [hm, h1, wrap32_of_range _ (by omega) (by omega)]
      push_cast
      rfl
    refine ⟨d.set (m + n) color, ?_, ?_, fun j => ?_⟩
    · simp only [fill_cols, hd, Option.some_bind, hidx]
      exact store_in_range d (m + n) color (by omega)
    · simp [hlen]
    · rw [List.getElem?_set, hget j]
      by_cases h1 : m + n = j
      · subst h1
        have h2 : m + n < d.length := by omega
        rw [if_pos rfl, if_pos h2, if_pos (by omega)]
      · by_cases h2 : m ≤ j ∧ j < m + n
        · have h3 : m ≤ j ∧ j < m + (n + 1) := by omega
          simp [h1, h2, h3]
        · have h3 : ¬ (m ≤ j ∧ j < m + (n + 1)) := by omega
          simp [h1, h2, h3]

/-- The outer loop writes `color` to the first `k * w` words and leaves the
other words as they were. -/
theorem fill_rows_spec (w : Nat) (color : Nat) (data : List Nat)
    (hL : data.length < 2147483648) (k : Nat) (hk : k * w ≤ data.length) :
    ∃ d, fill_rows (w : Int) color k data = some d ∧ d.length = data.length ∧
      ∀ j, d[j]? = if j < k * w then some color else data[j]? := by
  induction k with
  | zero =>
    exact ⟨data, rfl, rfl, fun j => by simp⟩
  | succ k ih =>
    have hs : (k + 1) * w = k * w + w := Nat.succ_mul k w
    obtain ⟨d, hd, hlen, hget⟩ := ih (by omega)
    obtain ⟨d2, hd2, hlen2, hget2⟩ :=
      fill_cols_spec (w : Int) color (k : Int) (k * w) (by push_cast; rfl) d (by omega) w
        (by omega)
    refine ⟨d2, ?_, by omega, fun j => ?_⟩
    · simp only [fill_rows, hd, Option.some_bind, Int.toNat_ofNat, hd2]
    · rw [hget2 j, hget j, hs]
      by_cases h1 : j < k * w
      · have h2 : ¬ (k * w ≤ j ∧ j < k * w + w) := by omega
        have h3 : j < k * w + w := by omega
        simp [h1, h2, h3]
      · by_cases h2 : j < k * w + w
        · have h3 : k * w ≤ j ∧ j < k * w + w := by omega
          simp [h2, h3]
        · have h3 : ¬ (k * w ≤ j ∧ j < k * w + w) := by omega
          simp [h1, h2, h3]

/-- The fill loop on a zeroed mapping of `w * h` words, when `4 * w * h` fits
in an `int`: every store stays inside and every word ends up `color`. -/
theorem fill_zeroed (state : client_state) (w h : Nat) (hw : state.width = (w : Int))
    (hh : state.height = (h : Int)) (hfit : 4 * (w * h) < 2147483648) :
    ∃ d, fill state (List.replicate (w * h) 0) = some d ∧ d.length = w * h ∧
      ∀ p ∈ d, p = state.color := by
  obtain ⟨d, hd, hlen, hget⟩ :=
    fill_rows_spec w state.color (List.replicate (w * h) 0) (by simp; omega) h
      (by simp [Nat.mul_comm])
  refine ⟨d, ?_, by simpa using hlen, fun p hp => ?_⟩
  · simp only [fill, hw, hh, Int.toNat_ofNat, hd]
  · obtain ⟨j, hj⟩ := List.mem_iff_getElem?.mp hp
    have hjlt : j < d.length := by
      rcases List.getElem?_eq_some.mp hj with ⟨hlt, -⟩
      exact hlt
    have hjlt2 : j < h * w := by
      rw [hlen, List.length_replicate, Nat.mul_comm] at hjlt
      exact hjlt
    rw [hget j, if_pos hjlt2] at hj
    exact (Option.some.inj hj).symm

/-- C3: for a positive tracked width and height with `width*4*height` within
the range of an `int`, and when the temporary file is created, sized and
mapped, `create_shm_buffer` computes the stride `width*4` and the size
`width*4*height`, maps a region of exactly that many bytes, keeps every store
of the fill loop inside it, leaves each of its `width*height` 32-bit words
equal to the fill color, and hands a pool of that size and a buffer of that
stride to the shared-memory capability. -/
theorem create_shm_buffer_region (state : client_state) (env : ShmEnv)
    (hw : 0 < state.width) (hh : 0 < state.height)
    (hfit : state.width * 4 * state.height ≤ 2147483647)
    (hfd : 0 ≤ env.fd) (htr : 0 ≤ env.ftruncate) (hmap : env.mmap_ok = true) :
    (create_shm_buffer state env).stride = state.width * 4 ∧
    (create_shm_buffer state env).size = state.width * 4 * state.height ∧
    4 * ((mmap_region (create_shm_buffer state env).size).length : Int) =
      state.width * 4 * state.height ∧
    (create_shm_buffer state env).fault = false ∧
    (∃ d, (create_shm_buffer state env).data = some d ∧
      (d.length : Int) = state.width * state.height ∧ ∀ p ∈ d, p = state.color) ∧
    (create_shm_buffer state env).buffer = env.buffer ∧
    (create_shm_buffer state env).calls =
      [Call.wl_shm_create_pool state.shm env.fd (state.width * 4 * state.height) env.pool,
       Call.wl_shm_pool_create_buffer env.pool 0 state.width state.height (state.width * 4)
         WL_SHM_FORMAT_ARGB8888 env.buffer,
       Call.wl_shm_pool_destroy env.pool] := by
  obtain ⟨w, hwn⟩ := Int.eq_ofNat_of_zero_le (le_of_lt hw)
  obtain ⟨h, hhn⟩ := Int.eq_ofNat_of_zero_le (le_of_lt hh)
  have hprod : state.width * 4 * state.height = ((4 * (w * h) : Nat) : Int) := by
    rw [hwn, hhn]; push_cast; ring
  have hfitn : 4 * (w * h) < 2147483648 := by
    have : ((4 * (w * h) : Nat) : Int) ≤ 2147483647 := hprod ▸ hfit
    omega
  have hwpos : 0 < w := by omega
  have hhpos : 0 < h := by omega
  have hwle : w ≤ w * h := Nat.le_mul_of_pos_right w hhpos
  have hstride : wrap32 (state.width * 4) = state.width * 4 :=
    wrap32_of_range _ (by omega) (by omega)
  have hsize : wrap32 (state.width * 4 * state.height) = state.width * 4 * state.height := by
    rw [hprod]
    exact wrap32_of_range _ (by omega) (by omega)
  have hregion : mmap_region (state.width * 4 * state.height) = List.replicate (w * h) 0 := by
    unfold mmap_region
    rw [hprod]
    congr 1
    omega
  obtain ⟨d, hd, hlen, hall⟩ := fill_zeroed state w h hwn hhn hfitn
  have hfd2 : ¬ env.fd < 0 := by omega
  have htr2 : ¬ env.ftruncate < 0 := by omega
  have hb : create_shm_buffer state env =
      ⟨env.buffer,
        [Call.wl_shm_create_pool state.shm env.fd (state.width * 4 * state.height) env.pool,
         Call.wl_shm_pool_create_buffer env.pool 0 state.width state.height (state.width * 4)
           WL_SHM_FORMAT_ARGB8888 env.buffer,
         Call.wl_shm_pool_destroy env.pool],
        state.width * 4, state.width * 4 * state.height, some d, false⟩ := by
    unfold create_shm_buffer
    simp only [hstride, hsize, hregion, hd, hfd2, htr2, hmap, if_false]
    simp
  rw [hb]
  refine ⟨rfl, rfl, ?_, rfl, ⟨d, rfl, ?_, hall⟩, rfl, rfl⟩
  · show 4 * ((mmap_region (state.width * 4 * state.height)).length : Int) = _
    rw [hregion, List.length_replicate, hprod]
    push_cast
    ring
  · rw [hlen, hwn, hhn]
    push_cast
    rfl

/-- C3, at the session tracking 800x600: stride 3200, a region of 1,920,000
bytes, all 480,000 words equal to the fill color. -/
theorem create_shm_buffer_region_witness :
    (create_shm_buffer state0 (shm_ok 9 10)).stride = 3200 ∧
    (create_shm_buffer state0 (shm_ok 9 10)).size = 1920000 ∧
    4 * ((mmap_region (create_shm_buffer state0 (shm_ok 9 10)).size).length : Int) = 1920000 ∧
    (create_shm_buffer state0 (shm_ok 9 10)).fault = false ∧
    (∃ d, (create_shm_buffer state0 (shm_ok 9 10)).data = some d ∧
      (d.length : Int) = 480000 ∧ ∀ p ∈ d, p = 0x0A0000FF) ∧
    (create_shm_buffer state0 (shm_ok 9 10)).buffer = 10 ∧
    (create_shm_buffer state0 (shm_ok 9 10)).calls =
      [Call.wl_shm_create_pool 4 3 1920000 9,
       Call.wl_shm_pool_create_buffer 9 0 800 600 3200 WL_SHM_FORMAT_ARGB8888 10,
       Call.wl_shm_pool_destroy 9] :=
  create_shm_buffer_region state0 (shm_ok 9 10) (by decide) (by decide) (by decide) (by decide)
    (by decide) rfl

theorem create_shm_buffer_stride (state : client_state) (env : ShmEnv) :
    (create_shm_buffer state env).stride = wrap32 (state.width * 4) ∧
    (create_shm_buffer state env).size = wrap32 (wrap32 (state.width * 4) * state.height) := by
  unfold create_shm_buffer
  simp only
  split_ifs
  · exact ⟨rfl, rfl⟩
  · exact ⟨rfl, rfl⟩
  · exact ⟨rfl, rfl⟩
  · split <;> exact ⟨rfl, rfl⟩

theorem configure_sizes_tracked (sizes : List (Int × Int)) :
    ∀ state : client_state,
      ((configure_sizes state sizes).width, (configure_sizes state sizes).height) =
        (last_positive sizes).getD (state.width, state.height) := by
  induction sizes with
  | nil => intro state; rfl
  | cons p ps ih =>
    intro state
    by_cases hp : 0 < p.1 ∧ 0 < p.2
    · have hstep : (xdg_toplevel_configure state state.xdg_toplevel p.1 p.2 []).state =
          { state with width := p.1, height := p.2 } :=
        (xdg_toplevel_configure_size_aux state state.xdg_toplevel p.1 p.2 []).1 hp.1 hp.2
      have hl : last_positive (p :: ps) = some ((last_positive ps).getD p) := by
        simp [last_positive, List.filter_cons, hp, List.getLast?_cons]
      simp only [configure_sizes, hstep, ih, hl, Option.getD_some]
    · have hstep : (xdg_toplevel_configure state state.xdg_toplevel p.1 p.2 []).state = state :=
        (xdg_toplevel_configure_size_aux state state.xdg_toplevel p.1 p.2 []).2 (by omega)
      have hl : last_positive (p :: ps) = last_positive ps := by
        simp [last_positive, List.filter_cons, hp]
      simp only [configure_sizes, hstep, ih, hl]

theorem configure_sizes_positive (sizes : List (Int × Int)) :
    ∀ state : client_state, 0 < state.width → 0 < state.height →
      0 < (configure_sizes state sizes).width ∧ 0 < (configure_sizes state sizes).height := by
  induction sizes with
  | nil => intro state hw hh; exact ⟨hw, hh⟩
  | cons p ps ih =>
    intro state hw hh
    by_cases hp : 0 < p.1 ∧ 0 < p.2
    · have hstep : (xdg_toplevel_configure state state.xdg_toplevel p.1 p.2 []).state =
          { state with width := p.1, height := p.2 } :=
        (xdg_toplevel_configure_size_aux state state.xdg_toplevel p.1 p.2 []).1 hp.1 hp.2
      simp only [configure_sizes, hstep]
      exact ih _ hp.1 hp.2
    · have hstep : (xdg_toplevel_configure state state.xdg_toplevel p.1 p.2 []).state = state :=
        (xdg_toplevel_configure_size_aux state state.xdg_toplevel p.1 p.2 []).2 (by omega)
      simp only [configure_sizes, hstep]
      exact ih _ hw hh

/-- C10, as the code has it: from a session tracking 800x600, after any
sequence of toplevel configure events the tracked width and height are both
strictly positive and the tracked size is the size of the most recent event in
which both values were positive, or 800x600 if there was none; a redraw then
computes a strictly positive stride and size provided `width*4*height` is
within the range of an `int`. -/
theorem configure_sizes_invariant (state : client_state) (sizes : List (Int × Int))
    (env : ShmEnv) (hw : state.width = 800) (hh : state.height = 600) :
    0 < (configure_sizes state sizes).width ∧ 0 < (configure_sizes state sizes).height ∧
    ((configure_sizes state sizes).width, (configure_sizes state sizes).height) =
      (last_positive sizes).getD (800, 600) ∧
    ((configure_sizes state sizes).width * 4 * (configure_sizes state sizes).height
        ≤ 2147483647 →
      0 < (create_shm_buffer (configure_sizes state sizes) env).stride ∧
      0 < (create_shm_buffer (configure_sizes state sizes) env).size ∧
      0 < (configure_sizes state sizes).width * (configure_sizes state sizes).height) := by
  have hpos := configure_sizes_positive sizes state (by omega) (by omega)
  refine ⟨hpos.1, hpos.2, ?_, fun hfit => ?_⟩
  · rw [configure_sizes_tracked, hw, hh]
  · generalize configure_sizes state sizes = s at hpos hfit
    obtain ⟨hw1, hh1⟩ := hpos
    have hmul : 0 < s.width * s.height := Int.mul_pos hw1 hh1
    have hle : s.width * 4 ≤ s.width * 4 * s.height := by nlinarith
    have h1 : wrap32 (s.width * 4) = s.width * 4 := wrap32_of_range _ (by omega) (by omega)
    have h2 : wrap32 (s.width * 4 * s.height) = s.width * 4 * s.height :=
      wrap32_of_range _ (by omega) (by omega)
    rw [(create_shm_buffer_stride s env).1, (create_shm_buffer_stride s env).2, h1, h2]
    exact ⟨by omega, by omega, hmul⟩

/-- C10, from 800x600 after the events 0x0, 640x480, -1x5: the tracked size is
640x480, and a redraw computes stride 2560 and size 1,228,800, both positive. -/
theorem configure_sizes_invariant_witness :
    (0 < (configure_sizes state0 [(0, 0), (640, 480), (-1, 5)]).width ∧
     0 < (configure_sizes state0 [(0, 0), (640, 480), (-1, 5)]).height ∧
     ((configure_sizes state0 [(0, 0), (640, 480), (-1, 5)]).width,
       (configure_sizes state0 [(0, 0), (640, 480), (-1, 5)]).height) =
        (last_positive [(0, 0), (640, 480), (-1, 5)]).getD (800, 600)) ∧
    (0 < (create_shm_buffer (configure_sizes state0 [(0, 0), (640, 480), (-1, 5)])
        shm_no_size).stride ∧
     0 < (create_shm_buffer (configure_sizes state0 [(0, 0), (640, 480), (-1, 5)])
        shm_no_size).size ∧
     0 < (configure_sizes state0 [(0, 0), (640, 480), (-1, 5)]).width *
        (configure_sizes state0 [(0, 0), (640, 480), (-1, 5)]).height) :=
  have h := configure_sizes_invariant state0 [(0, 0), (640, 480), (-1, 5)] shm_no_size rfl rfl
  ⟨⟨h.1, h.2.1, h.2.2.1⟩, h.2.2.2 (by decide)⟩

/-- C10 fails as stated: from 800x600, after the single toplevel configure
event 536870912x1 (both values positive 32-bit integers) the redraw computes
the stride -2147483648 and the size -2147483648, neither strictly positive. -/
theorem configure_sizes_stride_not_positive :
    (configure_sizes state0 [(536870912, 1)]).width = 536870912 ∧
    (configure_sizes state0 [(536870912, 1)]).height = 1 ∧
    (create_shm_buffer (configure_sizes state0 [(536870912, 1)]) shm_no_size).stride
      = -2147483648 ∧
    (create_shm_buffer (configure_sizes state0 [(536870912, 1)]) shm_no_size).size
      = -2147483648 ∧
    ¬ (0 < (create_shm_buffer (configure_sizes state0 [(536870912, 1)]) shm_no_size).stride) := by
  decide

theorem andThen_assoc (r : Step) (f g : client_state → Step) :
    (r.andThen f).andThen g = r.andThen fun s => (f s).andThen g := by
  unfold Step.andThen
  cases hr : r.exit with
  | some e => simp [hr]
  | none =>
    simp only [hr]
    cases hf : (f r.state).exit with
    | some e => simp [hf]
    | none => simp [hf, List.append_assoc]

theorem andThen_exit_eq_none (r : Step) (f : client_state → Step)
    (h : (r.andThen f).exit = none) : r.exit = none ∧ (f r.state).exit = none := by
  unfold Step.andThen at h
  cases hr : r.exit with
  | some e => simp [hr] at h
  | none => simpa [hr] using h

theorem dispatch_events_append (a b : List Event) :
    ∀ state : client_state,
      dispatch_events state (a ++ b) =
        (dispatch_events state a).andThen fun s => dispatch_events s b := by
  induction a with
  | nil =>
    intro state
    simp [dispatch_events, Step.andThen]
  | cons e es ih =>
    intro state
    simp only [List.cons_append, List.append_eq, dispatch_events, ih, andThen_assoc]

theorem run_batches_append (a b : List (List Event)) :
    ∀ state : client_state,
      run_batches state (a ++ b) = (run_batches state a).andThen fun s => run_batches s b := by
  induction a with
  | nil =>
    intro state
    simp [run_batches, Step.andThen]
  | cons e es ih =>
    intro state
    simp only [List.cons_append, List.append_eq, run_batches, ih, andThen_assoc]

theorem dispatch_events_close (state : client_state) (after : List Event) :
    dispatch_events state (Event.xdg_toplevel_close :: after) =
      ⟨state,
        [Call.wl_display_cancel_read state.display, Call.wl_display_disconnect state.display],
        some (Exit.code 0)⟩ := by
  simp [dispatch_events, dispatch_event, xdg_toplevel_close, Step.andThen]

/-- C6, as the code has it: when a toplevel close event is delivered to a
running session, the handler calls `wl_display_cancel_read` and
`wl_display_disconnect` and ends the process with code 0 there and then: the
events behind it are not delivered, the loop is not left, and none of the
calls of the teardown of step 16 is made. -/
theorem main_close_exits (env : Env) (done : List (List Event)) (before after : List Event)
    (rest : List (List Event))
    (hloop : env.loop = done ++ (before ++ Event.xdg_toplevel_close :: after) :: rest)
    (hrun : (main_until env done before).exit = none) :
    main env =
      ⟨(main_until env done before).state,
        (main_until env done before).calls ++
          [Call.wl_display_cancel_read (main_until env done before).state.display,
           Call.wl_display_disconnect (main_until env done before).state.display],
        some (Exit.code 0)⟩ := by
  have hmain : main env = (main_until env done before).andThen fun s =>
      ((dispatch_events s (Event.xdg_toplevel_close :: after)).andThen fun s =>
        (run_batches s rest).andThen fun s =>
          ⟨s, [Call.wl_display_dispatch s.display], none⟩).andThen fun s =>
        ⟨s, main_cleanup s, some (Exit.code EXIT_SUCCESS)⟩ := by
    simp only [main, main_run, event_loop, hloop, main_until, run_batches_append, run_batches,
      dispatch_events_append, andThen_assoc]
  rw [hmain, andThen_exit_none _ _ hrun]
  simp only [dispatch_events_close]
  simp [Step.andThen]

/-- C6, in the sample run whose first batch resizes to 1x1, redraws, and then
closes: the run ends with code 0 right after the two display calls of the
close handler. -/
theorem main_close_exits_witness :
    main env_close =
      ⟨(main_until env_close []
          [Event.xdg_toplevel_configure 1 1 [],
           Event.xdg_surface_configure 8 (shm_ok 13 14)]).state,
        (main_until env_close []
          [Event.xdg_toplevel_configure 1 1 [],
           Event.xdg_surface_configure 8 (shm_ok 13 14)]).calls ++
          [Call.wl_display_cancel_read (main_until env_close []
            [Event.xdg_toplevel_configure 1 1 [],
             Event.xdg_surface_configure 8 (shm_ok 13 14)]).state.display,
           Call.wl_display_disconnect (main_until env_close []
            [Event.xdg_toplevel_configure 1 1 [],
             Event.xdg_surface_configure 8 (shm_ok 13 14)]).state.display],
        some (Exit.code 0)⟩ :=
  main_close_exits env_close []
    [Event.xdg_toplevel_configure 1 1 [], Event.xdg_surface_configure 8 (shm_ok 13 14)]
    [Event.xdg_toplevel_configure 3 3 []] [[]] rfl (by decide)

/-- C6 fails as stated: in the sample run that receives a close event while
running, the process ends with code 0 but the teardown is not executed: apart
from the disconnect of the display made by the close handler itself, none of
the calls of the teardown sequence (buffer 14, toplevel 8, xdg surface 7,
surface 6, capabilities 5, 4, 3, registry 2) is ever made. -/
theorem main_close_skips_teardown :
    (main env_close).exit = some (Exit.code 0) ∧
    (main env_close).state.buffer = 14 ∧
    Call.wl_buffer_destroy 14 ∉ (main env_close).calls ∧
    Call.xdg_toplevel_destroy 8 ∉ (main env_close).calls ∧
    Call.xdg_surface_destroy 7 ∉ (main env_close).calls ∧
    Call.wl_surface_destroy 6 ∉ (main env_close).calls ∧
    Call.xdg_wm_base_destroy 5 ∉ (main env_close).calls ∧
    Call.wl_shm_destroy 4 ∉ (main env_close).calls ∧
    Call.wl_compositor_destroy 3 ∉ (main env_close).calls ∧
    Call.wl_registry_destroy 2 ∉ (main env_close).calls ∧
    (∀ c ∈ main_cleanup (main env_close).state,
      c = Call.wl_display_disconnect 1 ∨ c ∉ (main env_close).calls) := by
  decide

theorem registry_global_effect (state : client_state) (registry : Ptr) (id : Nat)
    (interface : String) (version : Nat) (proxy : Ptr) :
    (registry_global state registry id interface version proxy).exit = none ∧
    (∀ c ∈ (registry_global state registry id interface version proxy).calls,
      creates_surface c = false) ∧
    (interface ≠ "wl_compositor" →
      (registry_global state registry id interface version proxy).state.compositor
        = state.compositor) ∧
    (interface ≠ "wl_shm" →
      (registry_global state registry id interface version proxy).state.shm = state.shm) ∧
    (interface ≠ "xdg_wm_base" →
      (registry_global state registry id interface version proxy).state.xdg_wm_base
        = state.xdg_wm_base) := by
  unfold registry_global
  split_ifs with h1 h2 h3
  · subst h1
    simp [creates_surface]
  · subst h2
    simp [creates_surface]
  · subst h3
    simp [creates_surface]
  · simp

/-- Delivery of the announced globals never ends the process, creates no
surface, and leaves a capability handle alone when its interface is not among
the globals. -/
theorem dispatch_globals_effect (gs : List Global) :
    ∀ state : client_state,
      (dispatch_events state (gs.map Event.global)).exit = none ∧
      (∀ c ∈ (dispatch_events state (gs.map Event.global)).calls, creates_surface c = false) ∧
      ((∀ g ∈ gs, g.interface ≠ "wl_compositor") →
        (dispatch_events state (gs.map Event.global)).state.compositor = state.compositor) ∧
      ((∀ g ∈ gs, g.interface ≠ "wl_shm") →
        (dispatch_events state (gs.map Event.global)).state.shm = state.shm) ∧
      ((∀ g ∈ gs, g.interface ≠ "xdg_wm_base") →
        (dispatch_events state (gs.map Event.global)).state.xdg_wm_base
          = state.xdg_wm_base) := by
  induction gs with
  | nil =>
    intro state
    simp [dispatch_events]
  | cons g gs ih =>
    intro state
    obtain ⟨h1, h2, h3, h4, h5⟩ :=
      registry_global_effect state state.registry g.id g.interface g.version g.proxy
    obtain ⟨k1, k2, k3, k4, k5⟩ :=
      ih (registry_global state state.registry g.id g.interface g.version g.proxy).state
    have hstep : dispatch_events state ((g :: gs).map Event.global) =
        ⟨(dispatch_events (registry_global state state.registry g.id g.interface g.version
            g.proxy).state (gs.map Event.global)).state,
          (registry_global state state.registry g.id g.interface g.version g.proxy).calls ++
            (dispatch_events (registry_global state state.registry g.id g.interface g.version
              g.proxy).state (gs.map Event.global)).calls,
          (dispatch_events (registry_global state state.registry g.id g.interface g.version
            g.proxy).state (gs.map Event.global)).exit⟩ := by
      simp only [List.map_cons, dispatch_events, dispatch_event]
      exact andThen_exit_none _ _ h1
    rw [hstep]
    refine ⟨k1, ?_, ?_, ?_, ?_⟩
    · intro c hc
      rcases List.mem_append.mp hc with hc | hc
      · exact h2 c hc
      · exact k2 c hc
    · intro hg
      show (dispatch_events _ _).state.compositor = _
      rw [k3 fun g hgs => hg g (List.mem_cons_of_mem _ hgs), h3 (hg g (List.mem_cons_self _ _))]
    · intro hg
      show (dispatch_events _ _).state.shm = _
      rw [k4 fun g hgs => hg g (List.mem_cons_of_mem _ hgs), h4 (hg g (List.mem_cons_self _ _))]
    · intro hg
      show (dispatch_events _ _).state.xdg_wm_base = _
      rw [k5 fun g hgs => hg g (List.mem_cons_of_mem _ hgs), h5 (hg g (List.mem_cons_self _ _))]

/-- The result of steps 1 to 4 of `main` when the connection is made. -/
theorem main_connect_connected (env : Env) (hd : env.display ≠ 0) :
    main_connect env =
      ⟨(dispatch_events { zero_state with display := env.display, registry := env.registry }
          (env.globals.map Event.global)).state,
        [Call.wl_display_connect env.display,
         Call.wl_display_get_registry env.display env.registry,
         Call.wl_registry_add_listener env.registry,
         Call.wl_display_roundtrip env.display] ++
          (dispatch_events { zero_state with display := env.display, registry := env.registry }
            (env.globals.map Event.global)).calls,
        if (dispatch_events { zero_state with display := env.display, registry := env.registry }
              (env.globals.map Event.global)).state.compositor = 0 ∨
            (dispatch_events { zero_state with display := env.display, registry := env.registry }
              (env.globals.map Event.global)).state.shm = 0 ∨
            (dispatch_events { zero_state with display := env.display, registry := env.registry }
              (env.globals.map Event.global)).state.xdg_wm_base = 0
        then some (Exit.code EXIT_FAILURE) else none⟩ := by
  have hg := (dispatch_globals_effect env.globals
    { zero_state with display := env.display, registry := env.registry }).1
  unfold main_connect
  simp only [hd, if_false, Step.andThen, hg]
  split_ifs <;> simp

theorem main_of_connect_exit (env : Env) (e : Exit) (h : (main_connect env).exit = some e) :
    main env = main_connect env := by
  unfold main main_run main_setup
  rw [andThen_exit_some (main_connect env) _ e h, andThen_exit_some (main_connect env) _ e h,
    andThen_exit_some (main_connect env) _ e h, andThen_exit_some (main_connect env) _ e h]

/-- C4: when the globals announced during the initial round-trip lack
`wl_compositor`, or lack `wl_shm`, or lack `xdg_wm_base`, `main` ends with
the non-zero code `EXIT_FAILURE` and makes no call that creates the surface,
the xdg surface or the toplevel. -/
theorem main_missing_capability (env : Env)
    (hmiss : (∀ g ∈ env.globals, g.interface ≠ "wl_compositor") ∨
      (∀ g ∈ env.globals, g.interface ≠ "wl_shm") ∨
      (∀ g ∈ env.globals, g.interface ≠ "xdg_wm_base")) :
    (main env).exit = some (Exit.code EXIT_FAILURE) ∧ EXIT_FAILURE ≠ 0 ∧
    ∀ c ∈ (main env).calls, creates_surface c = false := by
  have hfail : (main_connect env).exit = some (Exit.code EXIT_FAILURE) ∧
      ∀ c ∈ (main_connect env).calls, creates_surface c = false := by
    by_cases hd : env.display = 0
    · unfold main_connect
      simp [hd, creates_surface]
    · obtain ⟨-, g2, g3, g4, g5⟩ := dispatch_globals_effect env.globals
        { zero_state with display := env.display, registry := env.registry }
      rw [main_connect_connected env hd]
      refine ⟨?_, ?_⟩
      · have hz : (dispatch_events
              { zero_state with display := env.display, registry := env.registry }
              (env.globals.map Event.global)).state.compositor = 0 ∨
            (dispatch_events { zero_state with display := env.display, registry := env.registry }
              (env.globals.map Event.global)).state.shm = 0 ∨
            (dispatch_events { zero_state with display := env.display, registry := env.registry }
              (env.globals.map Event.global)).state.xdg_wm_base = 0 := by
          rcases hmiss with h | h | h
          · exact Or.inl (by rw [g3 h]; rfl)
          · exact Or.inr (Or.inl (by rw [g4 h]; rfl))
          · exact Or.inr (Or.inr (by rw [g5 h]; rfl))
        simp only [if_pos hz]
      · intro c hc
        rcases List.mem_append.mp hc with hc | hc
        · simp only [List.mem_cons, List.mem_singleton, List.not_mem_nil, or_false] at hc
          rcases hc with rfl | rfl | rfl | rfl <;> rfl
        · exact g2 c hc
  rw [main_of_connect_exit env _ hfail.1]
  exact ⟨hfail.1, by decide, hfail.2⟩

/-- C4, in the sample run against a service that announces `wl_shm`,
`xdg_wm_base` and `wl_seat` but no compositor. -/
theorem main_missing_capability_witness :
    (main env_no_compositor).exit = some (Exit.code EXIT_FAILURE) ∧ EXIT_FAILURE ≠ 0 ∧
    ∀ c ∈ (main env_no_compositor).calls, creates_surface c = false :=
  main_missing_capability env_no_compositor (Or.inl (by decide))

theorem dispatch_globals_version (v : Global → Nat) (gs : List Global) :
    ∀ state : client_state,
      dispatch_events state ((gs.map fun g => { g with version := v g }).map Event.global) =
        dispatch_events state (gs.map Event.global) := by
  induction gs with
  | nil => intro state; rfl
  | cons g gs ih =>
    intro state
    simp only [List.map_cons, dispatch_events, dispatch_event, ih]
    rfl

/-- C9, as the code has it: `registry_global` does not look at the announced
version.  Whatever version is announced, `wl_compositor` is bound at version
4, `wl_shm` and `xdg_wm_base` at version 1, the handle returned is recorded as
the capability, and the whole run of `main` is the same as with any other
announced versions. -/
theorem registry_global_ignores_version (state : client_state) (registry : Ptr) (id : Nat)
    (interface : String) (version other : Nat) (proxy : Ptr) (env : Env) (v : Global → Nat) :
    registry_global state registry id interface version proxy =
      registry_global state registry id interface other proxy ∧
    registry_global state registry id "wl_compositor" version proxy =
      ⟨{ state with compositor := proxy },
        [Call.wl_registry_bind registry id "wl_compositor" 4 proxy], none⟩ ∧
    registry_global state registry id "wl_shm" version proxy =
      ⟨{ state with shm := proxy }, [Call.wl_registry_bind registry id "wl_shm" 1 proxy], none⟩ ∧
    registry_global state registry id "xdg_wm_base" version proxy =
      ⟨{ state with xdg_wm_base := proxy },
        [Call.wl_registry_bind registry id "xdg_wm_base" 1 proxy], none⟩ ∧
    main { env with globals := env.globals.map fun g => { g with version := v g } } =
      main env := by
  refine ⟨rfl, ?_, ?_, ?_, ?_⟩
  · simp [registry_global]
  · simp [registry_global]
  · simp [registry_global]
  · have h1 : main_create
        { env with globals := env.globals.map fun g => { g with version := v g } } =
        main_create env := rfl
    have h2 : main_first_frame
        { env with globals := env.globals.map fun g => { g with version := v g } } =
        main_first_frame env := rfl
    simp only [main, main_run, main_setup, main_connect, h1, h2, dispatch_globals_version]

/-- C9 fails as stated: in the sample run against a service that announces
`wl_compositor` at version 3, the client binds it at version 4, keeps the
handle 3 as its compositor, creates the surface from it and runs to a clean
end with code 0. -/
theorem main_binds_lower_version :
    (⟨1, "wl_compositor", 3, 3⟩ : Global) ∈ env_old_compositor.globals ∧
    Call.wl_registry_bind 2 1 "wl_compositor" 4 3 ∈ (main env_old_compositor).calls ∧
    Call.wl_compositor_create_surface 3 6 ∈ (main env_old_compositor).calls ∧
    (main env_old_compositor).state.compositor = 3 ∧
    (main env_old_compositor).exit = some (Exit.code 0) ∧
    (main env_old_compositor).exit ≠ some (Exit.code EXIT_FAILURE) := by
  decide

theorem live_from_append (objs : List Obj) (a b : List Call) :
    live_from objs (a ++ b) = live_from (live_from objs a) b := by
  simp [live_from, List.foldl_append]

/-- A redraw that does not end the process keeps the objects of the session
other than the buffer and leaves, of the buffers and pools it handles, only
the current buffer alive. -/
theorem draw_frame_live (state : client_state) (env : ShmEnv)
    (h : (draw_frame state env).exit = none) :
    live_from (base_objs state ++ buffer_objs state) (draw_frame state env).calls =
      base_objs (draw_frame state env).state ++ buffer_objs (draw_frame state env).state ∧
    base_objs (draw_frame state env).state = base_objs state := by
  rcases draw_frame_cases state env with hc | hc | ⟨hb, hc⟩ | ⟨hb, hc⟩
  · rw [hc] at h; simp at h
  · rw [hc]; simp [live_from]
  · rw [hc]
    by_cases hp : env.pool = 0 <;> by_cases ho : state.buffer = 0 <;>
      simp [live_from, shm_calls, live_step, created, released, base_objs, buffer_objs, hb, hp,
        ho, List.erase_cons]
  · rw [hc]
    by_cases hp : env.pool = 0 <;> by_cases ho : state.buffer = 0 <;>
      simp [live_from, shm_calls, present_calls, live_step, created, released, base_objs,
        buffer_objs, hb, hp, ho, List.erase_cons]

/-- Two pieces of the program run one after the other keep the objects of the
session and its current buffer alive if each of them does. -/
theorem andThen_live (r : Step) (f : client_state → Step) (state : client_state)
    (hr : r.exit = none →
      live_from (base_objs state ++ buffer_objs state) r.calls =
        base_objs r.state ++ buffer_objs r.state ∧ base_objs r.state = base_objs state)
    (hf : (f r.state).exit = none →
      live_from (base_objs r.state ++ buffer_objs r.state) (f r.state).calls =
        base_objs (f r.state).state ++ buffer_objs (f r.state).state ∧
      base_objs (f r.state).state = base_objs r.state)
    (h : (r.andThen f).exit = none) :
    live_from (base_objs state ++ buffer_objs state) (r.andThen f).calls =
      base_objs (r.andThen f).state ++ buffer_objs (r.andThen f).state ∧
    base_objs (r.andThen f).state = base_objs state := by
  obtain ⟨h1, h2⟩ := andThen_exit_eq_none r f h
  obtain ⟨a1, a2⟩ := hr h1
  obtain ⟨b1, b2⟩ := hf h2
  rw [andThen_exit_none r f h1]
  refine ⟨?_, b2.trans a2⟩
  show live_from _ (r.calls ++ (f r.state).calls) = _
  rw [live_from_append, a1, b1]

theorem dispatch_event_live (state : client_state) (e : Event) (hb : binds e = false)
    (h : (dispatch_event state e).exit = none) :
    live_from (base_objs state ++ buffer_objs state) (dispatch_event state e).calls =
      base_objs (dispatch_event state e).state ++ buffer_objs (dispatch_event state e).state ∧
    base_objs (dispatch_event state e).state = base_objs state := by
  cases e with
  | global g =>
    have hreq : ¬ g.interface = "wl_compositor" ∧ ¬ g.interface = "wl_shm" ∧
        ¬ g.interface = "xdg_wm_base" := by
      simpa [binds, required] using hb
    simp [dispatch_event, registry_global, hreq.1, hreq.2.1, hreq.2.2, live_from]
  | xdg_surface_configure serial env =>
    have hd : (draw_frame state env).exit = none := h
    obtain ⟨d1, d2⟩ := draw_frame_live state env hd
    refine ⟨?_, d2⟩
    show live_from _ (Call.xdg_surface_ack_configure state.xdg_surface serial ::
      (draw_frame state env).calls) =
      base_objs (draw_frame state env).state ++ buffer_objs (draw_frame state env).state
    rw [← d1]
    rfl
  | xdg_toplevel_configure width height states =>
    simp only [dispatch_event, xdg_toplevel_configure]
    split_ifs <;> simp [live_from, base_objs, buffer_objs]
  | xdg_toplevel_close =>
    simp [dispatch_event, xdg_toplevel_close] at h

theorem dispatch_events_live (es : List Event) :
    ∀ state : client_state, (∀ e ∈ es, binds e = false) →
      (dispatch_events state es).exit = none →
      live_from (base_objs state ++ buffer_objs state) (dispatch_events state es).calls =
        base_objs (dispatch_events state es).state ++
          buffer_objs (dispatch_events state es).state ∧
      base_objs (dispatch_events state es).state = base_objs state := by
  induction es with
  | nil =>
    intro state _ _
    simp [dispatch_events, live_from]
  | cons e es ih =>
    intro state hb h
    exact andThen_live (dispatch_event state e) (fun s => dispatch_events s es) state
      (dispatch_event_live state e (hb e (List.mem_cons_self _ _)))
      (ih _ fun e he => hb e (List.mem_cons_of_mem _ he)) h

theorem dispatch_call_live (state : client_state) :
    (⟨state, [Call.wl_display_dispatch state.display], none⟩ : Step).exit = none →
    live_from (base_objs state ++ buffer_objs state)
        (⟨state, [Call.wl_display_dispatch state.display], none⟩ : Step).calls =
      base_objs (⟨state, [Call.wl_display_dispatch state.display], none⟩ : Step).state ++
        buffer_objs (⟨state, [Call.wl_display_dispatch state.display], none⟩ : Step).state ∧
    base_objs (⟨state, [Call.wl_display_dispatch state.display], none⟩ : Step).state =
      base_objs state := by
  intro _
  simp [live_from, live_step, created, released]

theorem run_batches_live (batches : List (List Event)) :
    ∀ state : client_state, (∀ b ∈ batches, ∀ e ∈ b, binds e = false) →
      (run_batches state batches).exit = none →
      live_from (base_objs state ++ buffer_objs state) (run_batches state batches).calls =
        base_objs (run_batches state batches).state ++
          buffer_objs (run_batches state batches).state ∧
      base_objs (run_batches state batches).state = base_objs state := by
  induction batches with
  | nil =>
    intro state _ _
    simp [run_batches, live_from]
  | cons b bs ih =>
    intro state hb h
    exact andThen_live _ (fun s => run_batches s bs) state
      (andThen_live _ (fun s => dispatch_events s b) state (dispatch_call_live state)
        (dispatch_events_live b _ (hb b (List.mem_cons_self _ _))))
      (ih _ fun b hbs => hb b (List.mem_cons_of_mem _ hbs)) h

theorem event_loop_live (batches : List (List Event)) (state : client_state)
    (hb : ∀ b ∈ batches, ∀ e ∈ b, binds e = false)
    (h : (event_loop state batches).exit = none) :
    live_from (base_objs state ++ buffer_objs state) (event_loop state batches).calls =
      base_objs (event_loop state batches).state ++
        buffer_objs (event_loop state batches).state ∧
    base_objs (event_loop state batches).state = base_objs state :=
  andThen_live _ (fun s => ⟨s, [Call.wl_display_dispatch s.display], none⟩) state
    (run_batches_live batches state hb) (dispatch_call_live _) h

theorem main_first_frame_live (env : Env) (state : client_state)
    (hb : ∀ e ∈ env.configure, binds e = false)
    (h : (main_first_frame env state).exit = none) :
    live_from (base_objs state ++ buffer_objs state) (main_first_frame env state).calls =
      base_objs (main_first_frame env state).state ++
        buffer_objs (main_first_frame env state).state ∧
    base_objs (main_first_frame env state).state = base_objs state :=
  andThen_live _ (fun s => draw_frame s env.first_frame) state
    (andThen_live _ (fun s => dispatch_events s env.configure) state
      (fun _ => by simp [live_from, live_step, created, released])
      (dispatch_events_live env.configure _ hb))
    (draw_frame_live _ env.first_frame) h

theorem dispatch_globals_filter (gs : List Global) :
    ∀ state : client_state,
      dispatch_events state (gs.map Event.global) =
        dispatch_events state ((gs.filter fun g => required g.interface).map Event.global) := by
  induction gs with
  | nil => intro state; rfl
  | cons g gs ih =>
    intro state
    by_cases hr : required g.interface = true
    · simp only [List.map_cons, List.filter_cons, hr, if_true, dispatch_events, ih]
    · have hreq : ¬ g.interface = "wl_compositor" ∧ ¬ g.interface = "wl_shm" ∧
          ¬ g.interface = "xdg_wm_base" := by
        simpa [required] using hr
      have hr2 : required g.interface = false := by simpa using hr
      simp only [List.map_cons, List.filter_cons, hr2, Bool.false_eq_true, if_false,
        dispatch_events]
      rw [← ih]
      simp [dispatch_event, registry_global, hreq.1, hreq.2.1, hreq.2.2, Step.andThen]

/-- Steps 1 to 4 of `main` when the connection is made and the globals the
client binds are announced once each, the compositor first, the shared-memory
service second and the window-manager base third. -/
theorem main_connect_ordered (env : Env) (hd : env.display ≠ 0) (g1 g2 g3 : Global)
    (hf : (env.globals.filter fun g => required g.interface) = [g1, g2, g3])
    (h1 : g1.interface = "wl_compositor") (h2 : g2.interface = "wl_shm")
    (h3 : g3.interface = "xdg_wm_base") :
    main_connect env =
      ⟨{ zero_state with
          display := env.display, registry := env.registry, compositor := g1.proxy,
          shm := g2.proxy, xdg_wm_base := g3.proxy },
        [Call.wl_display_connect env.display,
         Call.wl_display_get_registry env.display env.registry,
         Call.wl_registry_add_listener env.registry,
         Call.wl_display_roundtrip env.display,
         Call.wl_registry_bind env.registry g1.id "wl_compositor" 4 g1.proxy,
         Call.wl_registry_bind env.registry g2.id "wl_shm" 1 g2.proxy,
         Call.wl_registry_bind env.registry g3.id "xdg_wm_base" 1 g3.proxy],
        if g1.proxy = 0 ∨ g2.proxy = 0 ∨ g3.proxy = 0 then some (Exit.code EXIT_FAILURE)
        else none⟩ := by
  rw [main_connect_connected env hd, dispatch_globals_filter, hf]
  simp [dispatch_events, dispatch_event, registry_global, h1, h2, h3, Step.andThen]

/-- After steps 1 to 12, when none of them ended the process and the globals
were announced in the order compositor, shared memory, window-manager base,
the objects alive are the eight objects of the session, in the order of
`base_objs`, all with a handle, and there is no buffer yet. -/
theorem main_create_live (env : Env) (hreg : env.registry ≠ 0)
    (hglobals : (env.globals.filter fun g => required g.interface).map (fun g => g.interface) =
      ["wl_compositor", "wl_shm", "xdg_wm_base"])
    (h : ((main_connect env).andThen (main_create env)).exit = none) :
    live ((main_connect env).andThen (main_create env)).calls =
      base_objs ((main_connect env).andThen (main_create env)).state ++
        buffer_objs ((main_connect env).andThen (main_create env)).state ∧
    ∀ o ∈ base_objs ((main_connect env).andThen (main_create env)).state, o.2 ≠ 0 := by
  have hd : env.display ≠ 0 := by
    intro hd
    have := (andThen_exit_eq_none _ _ h).1
    simp [main_connect, hd] at this
  generalize hf : (env.globals.filter fun g => required g.interface) = fl at hglobals
  rcases fl with _ | ⟨g1, _ | ⟨g2, _ | ⟨g3, _ | ⟨g4, t⟩⟩⟩⟩ <;> simp at hglobals
  obtain ⟨h1, h2, h3⟩ := hglobals
  rw [main_connect_ordered env hd g1 g2 g3 hf h1 h2 h3] at h ⊢
  by_cases hp : g1.proxy = 0 ∨ g2.proxy = 0 ∨ g3.proxy = 0
  · simp [Step.andThen, hp] at h
  · have hp1 : g1.proxy ≠ 0 := fun hz => hp (Or.inl hz)
    have hp2 : g2.proxy ≠ 0 := fun hz => hp (Or.inr (Or.inl hz))
    have hp3 : g3.proxy ≠ 0 := fun hz => hp (Or.inr (Or.inr hz))
    by_cases hs : env.surface = 0
    · simp [Step.andThen, hp, main_create, hs] at h
    · by_cases hx : env.xdg_surface = 0
      · simp [Step.andThen, hp, main_create, hs, hx] at h
      · by_cases ht : env.xdg_toplevel = 0
        · simp [Step.andThen, hp, main_create, hs, hx, ht] at h
        · simp [Step.andThen, hp, main_create, hs, hx, ht, live, live_from, live_step, created,
            released, base_objs, buffer_objs, zero_state, hd, hreg, hp1, hp2, hp3]

theorem release_order_cleanup (state : client_state) :
    release_order (main_cleanup state) =
      ([(Kind.buffer, state.buffer), (Kind.xdg_toplevel, state.xdg_toplevel),
        (Kind.xdg_surface, state.xdg_surface), (Kind.surface, state.surface),
        (Kind.xdg_wm_base, state.xdg_wm_base), (Kind.shm, state.shm),
        (Kind.compositor, state.compositor)].filter fun o => decide (o.2 ≠ 0)) ++
      [(Kind.registry, state.registry), (Kind.display, state.display)] := by
  have hrel : ∀ a b : List Call, release_order (a ++ b) = release_order a ++ release_order b :=
    fun a b => List.filterMap_append a b released
  have hone : ∀ (c : Ptr → Call) (k : Kind), (∀ p, released (c p) = some (k, p)) →
      ∀ p : Ptr, release_order (if p ≠ 0 then [c p] else []) =
        [(k, p)].filter fun o => decide (o.2 ≠ 0) := by
    intro c k hc p
    by_cases h : p = 0 <;> simp [release_order, hc, h]
  have hsplit : ∀ (q : Obj → Bool) (o1 o2 o3 o4 o5 o6 o7 : Obj),
      [o1, o2, o3, o4, o5, o6, o7].filter q =
        [o1].filter q ++ [o2].filter q ++ [o3].filter q ++ [o4].filter q ++ [o5].filter q ++
          [o6].filter q ++ [o7].filter q := by
    intro q o1 o2 o3 o4 o5 o6 o7
    simp only [← List.filter_append]
    rfl
  unfold main_cleanup
  rw [hsplit]
  simp only [hrel]
  rw [hone Call.wl_buffer_destroy Kind.buffer (fun _ => rfl),
    hone Call.xdg_toplevel_destroy Kind.xdg_toplevel (fun _ => rfl),
    hone Call.xdg_surface_destroy Kind.xdg_surface (fun _ => rfl),
    hone Call.wl_surface_destroy Kind.surface (fun _ => rfl),
    hone Call.xdg_wm_base_destroy Kind.xdg_wm_base (fun _ => rfl),
    hone Call.wl_shm_destroy Kind.shm (fun _ => rfl),
    hone Call.wl_compositor_destroy Kind.compositor (fun _ => rfl)]
  rfl

/-- C5, as the code has it: when the dispatch loop ends, `main` makes the
calls of step 16 and returns `EXIT_SUCCESS`; the objects the session holds are
released in the order buffer, toplevel, xdg surface, surface, window-manager
base, shared memory, compositor, registry, connection.  When the registry
handle is not null, the registry announced the globals the client binds once
each in the order compositor, shared memory, window-manager base, and no
later event announces one of them again, the objects alive at the end of the
loop were created in the order connection, registry, compositor, shared
memory, window-manager base, surface, xdg surface, toplevel, buffer, and the
release order is the exact reverse of that creation order. -/
theorem main_teardown_order (env : Env) (hrun : (main_run env).exit = none) :
    (main env).exit = some (Exit.code EXIT_SUCCESS) ∧
    (main env).calls = (main_run env).calls ++ main_cleanup (main_run env).state ∧
    release_order (main_cleanup (main_run env).state) =
      ([(Kind.buffer, (main_run env).state.buffer),
        (Kind.xdg_toplevel, (main_run env).state.xdg_toplevel),
        (Kind.xdg_surface, (main_run env).state.xdg_surface),
        (Kind.surface, (main_run env).state.surface),
        (Kind.xdg_wm_base, (main_run env).state.xdg_wm_base),
        (Kind.shm, (main_run env).state.shm),
        (Kind.compositor, (main_run env).state.compositor)].filter
          fun o => decide (o.2 ≠ 0)) ++
      [(Kind.registry, (main_run env).state.registry),
       (Kind.display, (main_run env).state.display)] ∧
    (env.registry ≠ 0 →
      (env.globals.filter fun g => required g.interface).map (fun g => g.interface) =
        ["wl_compositor", "wl_shm", "xdg_wm_base"] →
      (∀ e ∈ env.configure, binds e = false) →
      (∀ b ∈ env.loop, ∀ e ∈ b, binds e = false) →
      live (main_run env).calls =
        base_objs (main_run env).state ++ buffer_objs (main_run env).state ∧
      release_order (main_cleanup (main_run env).state) =
        (live (main_run env).calls).reverse) := by
  refine ⟨?_, ?_, release_order_cleanup _, ?_⟩
  · simp [main, andThen_exit_none _ _ hrun]
  · simp [main, andThen_exit_none _ _ hrun]
  · intro hreg hglobals hconf hloop
    obtain ⟨hsetup, hev⟩ := andThen_exit_eq_none _ _ hrun
    obtain ⟨hcreate, hff⟩ := andThen_exit_eq_none _ _ hsetup
    obtain ⟨k1, k2⟩ := main_create_live env hreg hglobals hcreate
    have hrest := andThen_live _ (fun s => event_loop s env.loop)
      ((main_connect env).andThen (main_create env)).state
      (fun _ => main_first_frame_live env _ hconf hff)
      (fun hx => event_loop_live env.loop _ hloop hx)
    have hrun2 : (((main_connect env).andThen (main_create env)).andThen fun s =>
        (main_first_frame env s).andThen fun s => event_loop s env.loop).exit = none := by
      rw [← andThen_assoc]
      exact hrun
    have hmain : main_run env = ((main_connect env).andThen (main_create env)).andThen fun s =>
        (main_first_frame env s).andThen fun s => event_loop s env.loop := by
      simp only [main_run, main_setup, andThen_assoc]
    have hrest2 := hrest (andThen_exit_eq_none _ _ hrun2).2
    have hlive : live (main_run env).calls =
        base_objs (main_run env).state ++ buffer_objs (main_run env).state := by
      rw [hmain, andThen_exit_none _ _ hcreate]
      show live_from [] (_ ++ _) = _
      rw [live_from_append]
      exact (congrArg (fun l => live_from l _) k1).trans hrest2.1
    have hbase : base_objs (main_run env).state =
        base_objs ((main_connect env).andThen (main_create env)).state := by
      rw [hmain, andThen_exit_none _ _ hcreate]
      exact hrest2.2
    refine ⟨hlive, ?_⟩
    rw [hlive, release_order_cleanup]
    rw [← hbase] at k2
    generalize (main_run env).state = s at k2
    simp only [base_objs, List.mem_cons, List.mem_singleton, List.not_mem_nil, or_false,
      forall_eq_or_imp, forall_eq] at k2
    obtain ⟨-, -, n3, n4, n5, n6, n7, n8⟩ := k2
    by_cases hb : s.buffer = 0 <;>
      simp [base_objs, buffer_objs, hb, n3, n4, n5, n6, n7, n8, List.filter_cons]

/-- C5, in the sample run, whose service announces compositor, shared memory
and window-manager base in this order. -/
theorem main_teardown_order_witness :
    ((main env0).exit = some (Exit.code EXIT_SUCCESS) ∧
     (main env0).calls = (main_run env0).calls ++ main_cleanup (main_run env0).state) ∧
    (live (main_run env0).calls =
        base_objs (main_run env0).state ++ buffer_objs (main_run env0).state ∧
     release_order (main_cleanup (main_run env0).state) =
        (live (main_run env0).calls).reverse) :=
  have h := main_teardown_order env0 (by decide)
  ⟨⟨h.1, h.2.1⟩, h.2.2.2 (by decide) (by decide) (by decide) (by decide)⟩

/-- C5 fails as stated: in the sample run against a service that announces
`wl_shm` before `wl_compositor`, the loop ends, the objects alive were created
in the order connection, registry, shared memory, compositor, ..., and the
release order, which has shared memory before the compositor, is not the
reverse of that creation order. -/
theorem main_teardown_not_reverse :
    (main_run env_shm_first).exit = none ∧
    live (main_run env_shm_first).calls =
      [(Kind.display, 1), (Kind.registry, 2), (Kind.shm, 4), (Kind.compositor, 3),
       (Kind.xdg_wm_base, 5), (Kind.surface, 6), (Kind.xdg_surface, 7),
       (Kind.xdg_toplevel, 8), (Kind.buffer, 12)] ∧
    release_order (main_cleanup (main_run env_shm_first).state) =
      [(Kind.buffer, 12), (Kind.xdg_toplevel, 8), (Kind.xdg_surface, 7), (Kind.surface, 6),
       (Kind.xdg_wm_base, 5), (Kind.shm, 4), (Kind.compositor, 3), (Kind.registry, 2),
       (Kind.display, 1)] ∧
    release_order (main_cleanup (main_run env_shm_first).state) ≠
      (live (main_run env_shm_first).calls).reverse := by
  decide

end Surface
